import Mathlib

/-!
Shallow embedding of the gaia-cli model-and-template resolution workflow
(src/main.rs): the prompt-template registry, the cache scanner, the
download filename derivation, and the `command_start` orchestrator.
Interactive and network effects are modelled by an explicit environment
record and an event trace.
-/

/-- The fixed presentation catalog of template ids shown in the interactive
menu (the Rust constant of 20 string literals, in source order). -/
def PROMPT_TEMPLATES : List String :=
  [ "llama-2-chat",
    "mistral-instruct",
    "mistrallite",
    "openchat",
    "codellama-instruct",
    "human-asistant",
    "vicuna-1.0-chat",
    "vicuna-1.1-chat",
    "vicuna-llava",
    "chatml",
    "baichuan-2",
    "wizard-coder",
    "zephyr",
    "stablelm-zephyr",
    "intel-neural",
    "deepseek-chat",
    "deepseek-coder",
    "solar-instruct",
    "phi-2-chat",
    "phi-2-instruct" ]

/-- The closed enumeration of prompt templates (22 variants, in the Rust
declaration order). -/
inductive PromptTemplateType where
  | Llama2Chat
  | MistralInstruct
  | MistralLite
  | OpenChat
  | CodeLlama
  | CodeLlamaSuper
  | HumanAssistant
  | VicunaChat
  | Vicuna11Chat
  | VicunaLlava
  | ChatML
  | Baichuan2
  | WizardCoder
  | Zephyr
  | StableLMZephyr
  | IntelNeural
  | DeepseekChat
  | DeepseekCoder
  | SolarInstruct
  | Phi2Chat
  | Phi2Instruct
  | GemmaInstruct
  deriving DecidableEq

/-- The FromStr implementation: parse a template id string; on an unknown
string the Rust code bails with the string itself as the error message. -/
def PromptTemplateType.from_str (template : String) :
    Except String PromptTemplateType :=
  match template with
  | "llama-2-chat" => Except.ok PromptTemplateType.Llama2Chat
  | "mistral-instruct" => Except.ok PromptTemplateType.MistralInstruct
  | "mistrallite" => Except.ok PromptTemplateType.MistralLite
  | "codellama-instruct" => Except.ok PromptTemplateType.CodeLlama
  | "codellama-super-instruct" => Except.ok PromptTemplateType.CodeLlamaSuper
  | "belle-llama-2-chat" => Except.ok PromptTemplateType.HumanAssistant
  | "human-assistant" => Except.ok PromptTemplateType.HumanAssistant
  | "vicuna-1.0-chat" => Except.ok PromptTemplateType.VicunaChat
  | "vicuna-1.1-chat" => Except.ok PromptTemplateType.Vicuna11Chat
  | "vicuna-llava" => Except.ok PromptTemplateType.VicunaLlava
  | "chatml" => Except.ok PromptTemplateType.ChatML
  | "openchat" => Except.ok PromptTemplateType.OpenChat
  | "baichuan-2" => Except.ok PromptTemplateType.Baichuan2
  | "wizard-coder" => Except.ok PromptTemplateType.WizardCoder
  | "zephyr" => Except.ok PromptTemplateType.Zephyr
  | "stablelm-zephyr" => Except.ok PromptTemplateType.StableLMZephyr
  | "intel-neural" => Except.ok PromptTemplateType.IntelNeural
  | "deepseek-chat" => Except.ok PromptTemplateType.DeepseekChat
  | "deepseek-coder" => Except.ok PromptTemplateType.DeepseekCoder
  | "solar-instruct" => Except.ok PromptTemplateType.SolarInstruct
  | "phi-2-chat" => Except.ok PromptTemplateType.Phi2Chat
  | "phi-2-instruct" => Except.ok PromptTemplateType.Phi2Instruct
  | "gemma-instruct" => Except.ok PromptTemplateType.GemmaInstruct
  | _ => Except.error template

/-- The Display implementation: the string written for each variant. -/
def PromptTemplateType.display : PromptTemplateType → String
  | PromptTemplateType.Llama2Chat => "llama-2-chat"
  | PromptTemplateType.MistralInstruct => "mistral-instruct"
  | PromptTemplateType.MistralLite => "mistrallite"
  | PromptTemplateType.OpenChat => "openchat"
  | PromptTemplateType.CodeLlama => "codellama-instruct"
  | PromptTemplateType.HumanAssistant => "human-asistant"
  | PromptTemplateType.VicunaChat => "vicuna-1.0-chat"
  | PromptTemplateType.Vicuna11Chat => "vicuna-1.1-chat"
  | PromptTemplateType.VicunaLlava => "vicuna-llava"
  | PromptTemplateType.ChatML => "chatml"
  | PromptTemplateType.Baichuan2 => "baichuan-2"
  | PromptTemplateType.WizardCoder => "wizard-coder"
  | PromptTemplateType.Zephyr => "zephyr"
  | PromptTemplateType.StableLMZephyr => "stablelm-zephyr"
  | PromptTemplateType.IntelNeural => "intel-neural"
  | PromptTemplateType.DeepseekChat => "deepseek-chat"
  | PromptTemplateType.DeepseekCoder => "deepseek-coder"
  | PromptTemplateType.SolarInstruct => "solar-instruct"
  | PromptTemplateType.Phi2Chat => "phi-2-chat"
  | PromptTemplateType.Phi2Instruct => "phi-2-instruct"
  | PromptTemplateType.CodeLlamaSuper => "codellama-super-instruct"
  | PromptTemplateType.GemmaInstruct => "gemma-instruct"

deriving instance DecidableEq for Except

/-- Whether parsing a string succeeds and printing the parsed variant gives
the string back. -/
def roundtrips (s : String) : Bool :=
  match PromptTemplateType.from_str s with
  | Except.ok t => PromptTemplateType.display t == s
  | Except.error _ => false

example : roundtrips "llama-2-chat" = true := by decide
example : roundtrips "human-asistant" = false := by decide

/-- Rust str::ends_with on full strings: the suffix's characters are a
suffix of the string's characters (byte-for-byte, case-sensitive). -/
def strEndsWith (s suffix : String) : Bool :=
  suffix.data.isSuffixOf s.data

/-- Kind of a directory entry as seen by the scan. -/
inductive EntryKind where
  | file
  | dir
  deriving DecidableEq

/-- A readable directory entry: its filename and its kind. -/
structure DirEntry where
  name : String
  kind : EntryKind
  deriving DecidableEq

/-- The cache scan from command_start: iterate the directory listing
(an unreadable entry is none and is skipped by res.ok()), keep the
filename when it ends with the literal suffix. The Rust code never
inspects the entry kind. -/
def scanCache (entries : List (Option DirEntry)) : List String :=
  entries.filterMap (fun res =>
    res.bind (fun e =>
      if strEndsWith e.name ".gguf" then some e.name else none))

/-- Typed names for the distinct failure sources inside command_start
(in the Rust code they are all anyhow errors, told apart by origin). -/
inductive StartError where
  | parseError : String → StartError
  | invalidUrl : StartError
  | downloadFailed : StartError
  | noFilenameInUrl : StartError
  deriving DecidableEq

/-- Result of a run: normal success, a propagated error value, or a Rust
panic (process abort) with its message. -/
inductive Outcome (α : Type) where
  | ok : α → Outcome α
  | err : StartError → Outcome α
  | fatal : String → Outcome α
  deriving DecidableEq

/-- Whether an outcome is a normal error value (not a success, not a
process abort). -/
def Outcome.isErr {α : Type} : Outcome α → Bool
  | Outcome.err _ => true
  | _ => false

/-- Whether an outcome is a success. -/
def Outcome.isOk {α : Type} : Outcome α → Bool
  | Outcome.ok _ => true
  | _ => false

/-- Observable effects of a run, in order of occurrence. -/
inductive Event where
  | modelChooserShown : List String → Event
  | urlPromptShown : Event
  | networkRequest : String → Event
  | fileCreated : String → Event
  | templateChooserShown : List String → Event
  deriving DecidableEq

/-- Whether an event is an outgoing network request. -/
def Event.isNetwork : Event → Bool
  | Event.networkRequest _ => true
  | _ => false

/-- Whether an event is a file creation. -/
def Event.isFileCreated : Event → Bool
  | Event.fileCreated _ => true
  | _ => false

/-- Whether an event is the model chooser being shown. -/
def Event.isModelChooser : Event → Bool
  | Event.modelChooserShown _ => true
  | _ => false

/-- The environment a run interacts with: the working-directory listing,
the human's answers at each prompt, and the network's behaviour. The
response URL after redirects is modelled by its path segments (none for a
cannot-be-a-base URL with no path). -/
structure Env where
  cachedEntries : List (Option DirEntry)
  modelChoice : Option Nat
  urlInput : String
  urlParseOk : Bool
  getOk : Bool
  responseSegments : Option (List String)
  bodyOk : Bool
  templateChoice : Option Nat

/-- The sentinel entry command_start appends to a non-empty cached list. -/
def sentinelEntry : String :=
  "Or choose one from: https://huggingface.co/second-state?sort_models=modified#models or https://huggingface.co/models?sort=trending&search=gguf"

/-- download_model: parse the url, issue the blocking GET, take the last
path segment of the response URL (rejecting an empty segment), create the
file, stream the body. Failures of the GET or of the body copy surface as
downloadFailed; the body-copy failure happens after the file was created. -/
def download_model (env : Env) : Outcome String × List Event :=
  if env.urlParseOk = false then
    (Outcome.err StartError.invalidUrl, [])
  else if env.getOk = false then
    (Outcome.err StartError.downloadFailed, [Event.networkRequest env.urlInput])
  else
    match (env.responseSegments.bind List.getLast?).bind
        (fun name => if name = "" then none else some name) with
    | none =>
        (Outcome.err StartError.noFilenameInUrl,
         [Event.networkRequest env.urlInput])
    | some fname =>
        if env.bodyOk then
          (Outcome.ok fname,
           [Event.networkRequest env.urlInput, Event.fileCreated fname])
        else
          (Outcome.err StartError.downloadFailed,
           [Event.networkRequest env.urlInput, Event.fileCreated fname])

/-- The tail of model resolution: if the selected string ends in .gguf it
is the model; otherwise prompt for a url and download. -/
def finishSelection (env : Env) (selected : String) (evs : List Event) :
    Outcome String × List Event :=
  if strEndsWith selected ".gguf" then
    (Outcome.ok selected, evs)
  else
    let dl := download_model env
    (dl.1, evs ++ Event.urlPromptShown :: dl.2)

/-- Model resolution in command_start: with a model argument, print it and
use the literal "fake.gguf"; otherwise scan the cache, offer the chooser
when the scan is non-empty (panicking on cancellation, as the Rust code
does), and fall through to the url prompt when the selected string does
not end in .gguf. -/
def resolveModel (env : Env) (model : Option String) :
    Outcome String × List Event :=
  match model with
  | some _ => (Outcome.ok "fake.gguf", [])
  | none =>
    let cached_models := scanCache env.cachedEntries
    if cached_models.isEmpty then
      finishSelection env "" []
    else
      let items := cached_models ++ [sentinelEntry]
      match env.modelChoice with
      | none =>
          (Outcome.fatal "Fatal: No selection!",
           [Event.modelChooserShown items])
      | some idx =>
          if h : idx < items.length then
            finishSelection env (items.get ⟨idx, h⟩)
              [Event.modelChooserShown items]
          else
            (Outcome.fatal "index out of bounds",
             [Event.modelChooserShown items])

/-- Template resolution in command_start: the Some and None branches of
the match on the prompt_template argument are duplicated verbatim in the
Rust source; both show the catalog, panic on cancellation, and parse the
chosen catalog string. -/
def resolveTemplate (env : Env) (prompt_template : Option PromptTemplateType) :
    Outcome PromptTemplateType × List Event :=
  match prompt_template with
  | some _ =>
    match env.templateChoice with
    | none =>
        (Outcome.fatal "Fatal: No selection!",
         [Event.templateChooserShown PROMPT_TEMPLATES])
    | some idx =>
        if h : idx < PROMPT_TEMPLATES.length then
          match PromptTemplateType.from_str (PROMPT_TEMPLATES.get ⟨idx, h⟩) with
          | Except.ok t =>
              (Outcome.ok t, [Event.templateChooserShown PROMPT_TEMPLATES])
          | Except.error e =>
              (Outcome.err (StartError.parseError e),
               [Event.templateChooserShown PROMPT_TEMPLATES])
        else
          (Outcome.fatal "index out of bounds",
           [Event.templateChooserShown PROMPT_TEMPLATES])
  | none =>
    match env.templateChoice with
    | none =>
        (Outcome.fatal "Fatal: No selection!",
         [Event.templateChooserShown PROMPT_TEMPLATES])
    | some idx =>
        if h : idx < PROMPT_TEMPLATES.length then
          match PromptTemplateType.from_str (PROMPT_TEMPLATES.get ⟨idx, h⟩) with
          | Except.ok t =>
              (Outcome.ok t, [Event.templateChooserShown PROMPT_TEMPLATES])
          | Except.error e =>
              (Outcome.err (StartError.parseError e),
               [Event.templateChooserShown PROMPT_TEMPLATES])
        else
          (Outcome.fatal "index out of bounds",
           [Event.templateChooserShown PROMPT_TEMPLATES])

/-- command_start: resolve the model, then the template, then rescan the
working directory into an unused variable (as the Rust code does); the
observable result is the resolved pair. Errors and panics short-circuit. -/
def command_start (env : Env) (model : Option String)
    (prompt_template : Option PromptTemplateType)
    (reverse_prompt : Option String) (context_size : Option Nat) :
    Outcome (String × PromptTemplateType) × List Event :=
  let m := resolveModel env model
  match m.1 with
  | Outcome.ok path =>
    let t := resolveTemplate env prompt_template
    match t.1 with
    | Outcome.ok tpl =>
        let _files := scanCache env.cachedEntries
        (Outcome.ok (path, tpl), m.2 ++ t.2)
    | Outcome.err e => (Outcome.err e, m.2 ++ t.2)
    | Outcome.fatal s => (Outcome.fatal s, m.2 ++ t.2)
  | Outcome.err e => (Outcome.err e, m.2)
  | Outcome.fatal s => (Outcome.fatal s, m.2)

/-- A convenient fully concrete environment for closed evaluations. -/
def envBase : Env :=
  { cachedEntries := []
    modelChoice := none
    urlInput := ""
    urlParseOk := true
    getOk := true
    responseSegments := none
    bodyOk := true
    templateChoice := none }

/-- Environment with one cached model and a cancelled model chooser. -/
def envCancel : Env :=
  { envBase with cachedEntries := [some ⟨"a.gguf", EntryKind.file⟩] }

/-- Environment whose interactive template selection is catalog index 5. -/
def envIdx5 : Env := { envBase with templateChoice := some 5 }

/-- Environment whose response URL ends in a slash: its path segments are
["path", ""], so the last segment is empty. -/
def envSlash : Env := { envBase with responseSegments := some ["path", ""] }

/-- C1: the claim says every id in the presentation catalog parses and
roundtrips through display. The catalog entry "human-asistant" (index 5)
is rejected by from_str, which only accepts the differently spelt
"human-assistant"; every other catalog id parses and roundtrips. -/
theorem C1_catalog_roundtrip_fails_at_typo :
    "human-asistant" ∈ PROMPT_TEMPLATES ∧
    PromptTemplateType.from_str "human-asistant" = Except.error "human-asistant" ∧
    PROMPT_TEMPLATES.all (fun s => s == "human-asistant" || roundtrips s) = true := by
  decide

/-- C2: with a model argument present, resolution performs no directory
scan and no prompting (the event trace is empty), but the resolved path is
the hard-coded literal "fake.gguf", not the supplied identifier. -/
theorem C2_explicit_model_is_stubbed :
    (∀ (env : Env) (m : String),
      resolveModel env (some m) = (Outcome.ok "fake.gguf", [])) ∧
    (resolveModel envBase (some "llama-2-7b.Q4.gguf")).1 ≠
      Outcome.ok "llama-2-7b.Q4.gguf" := by
  constructor
  · intro env m
    rfl
  · decide

/-- C3 counterexample: with one cached model and a cancelled chooser, the
run ends in the panic "Fatal: No selection!" - not a normal error value -
and no network request is issued. -/
theorem C3_cancel_panics_counterexample :
    (command_start envCancel none none none none).1 =
      Outcome.fatal "Fatal: No selection!" ∧
    ((command_start envCancel none none none none).1).isErr = false ∧
    (command_start envCancel none none none none).2.any Event.isNetwork = false := by
  decide

/-- C3 amended: for every non-empty cached-model list, cancelling the
model chooser aborts the whole start workflow with the panic
"Fatal: No selection!" (a process abort, not a returned error value), and
no network request is issued in that run. -/
theorem C3_cancel_aborts_without_network (env : Env)
    (hne : scanCache env.cachedEntries ≠ [])
    (hc : env.modelChoice = none) (pt : Option PromptTemplateType)
    (rp : Option String) (cs : Option Nat) :
    (command_start env none pt rp cs).1 = Outcome.fatal "Fatal: No selection!" ∧
    (command_start env none pt rp cs).2.any Event.isNetwork = false := by
  have hempty : (scanCache env.cachedEntries).isEmpty = false := by
    cases hsc : scanCache env.cachedEntries with
    | nil => exact absurd hsc hne
    | cons a l => rfl
  have hm : resolveModel env none =
      (Outcome.fatal "Fatal: No selection!",
       [Event.modelChooserShown (scanCache env.cachedEntries ++ [sentinelEntry])]) := by
    simp [resolveModel, hempty, hc]
  constructor
  · unfold command_start
    rw [hm]
  · unfold command_start
    rw [hm]
    rfl

/-- C3 witness: the amended statement at the concrete cancelled run. -/
theorem C3_cancel_aborts_without_network_witness :
    (command_start envCancel none none none none).1 =
      Outcome.fatal "Fatal: No selection!" ∧
    (command_start envCancel none none none none).2.any Event.isNetwork = false :=
  C3_cancel_aborts_without_network envCancel (by decide) rfl none none none

/-- C5 counterexample: the presentation catalog does not have at least 21
entries, and does not contain "gemma-instruct". -/
theorem C5_catalog_small_counterexample :
    ¬ (21 ≤ PROMPT_TEMPLATES.length ∧ "gemma-instruct" ∈ PROMPT_TEMPLATES) := by
  decide

/-- C5 amended: the presentation catalog contains exactly 20 entries and
does not contain "gemma-instruct"; the parser nevertheless accepts
"gemma-instruct" (the enum's GemmaInstruct variant exists), its id is
simply absent from the interactive catalog. -/
theorem C5_catalog_has_twenty_entries :
    PROMPT_TEMPLATES.length = 20 ∧
    "gemma-instruct" ∉ PROMPT_TEMPLATES ∧
    PromptTemplateType.from_str "gemma-instruct" =
      Except.ok PromptTemplateType.GemmaInstruct := by
  decide

/-- C9: both deprecated aliases "belle-llama-2-chat" and "human-assistant"
parse to HumanAssistant, and display(HumanAssistant) is the catalog id
"human-asistant" (a member of the presentation catalog), not either alias. -/
theorem C9_aliases_map_to_human_assistant :
    PromptTemplateType.from_str "belle-llama-2-chat" =
      Except.ok PromptTemplateType.HumanAssistant ∧
    PromptTemplateType.from_str "human-assistant" =
      Except.ok PromptTemplateType.HumanAssistant ∧
    PromptTemplateType.display PromptTemplateType.HumanAssistant = "human-asistant" ∧
    "human-asistant" ∈ PROMPT_TEMPLATES ∧
    PromptTemplateType.display PromptTemplateType.HumanAssistant ≠ "belle-llama-2-chat" ∧
    PromptTemplateType.display PromptTemplateType.HumanAssistant ≠ "human-assistant" := by
  decide

/-- Modelled from the spec's words, for comparison with scanCache: the
spec says the scan excludes every entry that is not a regular file
(directories silently skipped) besides the suffix filter. -/
def scanSpecRegularFilesOnly (entries : List (Option DirEntry)) : List String :=
  entries.filterMap (fun res =>
    res.bind (fun e =>
      match e.kind with
      | EntryKind.file =>
          if strEndsWith e.name ".gguf" then some e.name else none
      | EntryKind.dir => none))

/-- C4 counterexample: a directory entry named "d.gguf" that is itself a
directory is returned by the code's scan, though it is not a regular file;
the spec-worded scan excludes it. -/
theorem C4_scan_keeps_gguf_directory :
    scanCache [some ⟨"d.gguf", EntryKind.dir⟩] = ["d.gguf"] ∧
    scanSpecRegularFilesOnly [some ⟨"d.gguf", EntryKind.dir⟩] = [] ∧
    scanCache [some ⟨"d.gguf", EntryKind.dir⟩] ≠
      scanSpecRegularFilesOnly [some ⟨"d.gguf", EntryKind.dir⟩] := by
  decide

/-- C4 amended: the cache scan returns exactly the readable entries whose
filename ends with the literal, case-sensitive suffix ".gguf", regardless
of whether the entry is a regular file or a directory; for a directory
containing a.gguf, b.GGUF, c.txt and a subdirectory b it returns exactly
["a.gguf"], the subdirectory being excluded only because its name lacks
the suffix. -/
theorem C4_scan_filters_by_suffix_only :
    (∀ (entries : List (Option DirEntry)) (s : String),
      s ∈ scanCache entries ↔
        (∃ e : DirEntry, some e ∈ entries ∧ e.name = s) ∧
        strEndsWith s ".gguf" = true) ∧
    scanCache [some ⟨"a.gguf", EntryKind.file⟩, some ⟨"b.GGUF", EntryKind.file⟩,
      some ⟨"c.txt", EntryKind.file⟩, some ⟨"b", EntryKind.dir⟩] = ["a.gguf"] := by
  constructor
  · intro entries s
    simp only [scanCache, List.mem_filterMap]
    constructor
    · rintro ⟨res, hres, hsome⟩
      match res with
      | none => simp at hsome
      | some e =>
        simp only [Option.some_bind] at hsome
        by_cases hsfx : strEndsWith e.name ".gguf" = true
        · rw [if_pos hsfx] at hsome
          have hname : e.name = s := Option.some.inj hsome
          exact ⟨⟨e, hres, hname⟩, hname ▸ hsfx⟩
        · rw [if_neg hsfx] at hsome
          exact absurd hsome (by simp)
    · rintro ⟨⟨e, he, hname⟩, hsfx⟩
      refine ⟨some e, he, ?_⟩
      simp only [Option.some_bind]
      rw [hname, if_pos hsfx]
  · decide

/-- C4 witness: the amended membership characterization at a concrete
listing. -/
theorem C4_scan_filters_by_suffix_only_witness :
    "x.gguf" ∈ scanCache [some ⟨"x.gguf", EntryKind.file⟩] :=
  (C4_scan_filters_by_suffix_only.1 _ _).mpr
    ⟨⟨⟨"x.gguf", EntryKind.file⟩, by simp, rfl⟩, by decide⟩

/-- Evaluation of download_model once the url parsed and the GET
succeeded: everything is decided by the last path segment of the response
url and by the body copy. -/
theorem download_model_after_get (env : Env) (hp : env.urlParseOk = true)
    (hg : env.getOk = true) :
    download_model env =
      match (env.responseSegments.bind List.getLast?).bind
          (fun name => if name = "" then none else some name) with
      | none =>
          (Outcome.err StartError.noFilenameInUrl,
           [Event.networkRequest env.urlInput])
      | some fname =>
          if env.bodyOk then
            (Outcome.ok fname,
             [Event.networkRequest env.urlInput, Event.fileCreated fname])
          else
            (Outcome.err StartError.downloadFailed,
             [Event.networkRequest env.urlInput, Event.fileCreated fname]) := by
  unfold download_model
  rw [if_neg (by simp [hp]), if_neg (by simp [hg])]

/-- C6: for a remote acquisition whose GET succeeded, the destination
filename is the final path segment of the response URL; when that segment
is absent or empty (URL ending in a slash) the download fails with
NoFilenameInUrl and no file is created. -/
theorem C6_filename_from_response_url (env : Env)
    (hp : env.urlParseOk = true) (hg : env.getOk = true) :
    ((env.responseSegments.bind List.getLast? = none ∨
      env.responseSegments.bind List.getLast? = some "") →
      download_model env =
        (Outcome.err StartError.noFilenameInUrl,
         [Event.networkRequest env.urlInput]) ∧
      (download_model env).2.any Event.isFileCreated = false) ∧
    (∀ name, env.responseSegments.bind List.getLast? = some name → name ≠ "" →
      env.bodyOk = true →
      download_model env =
        (Outcome.ok name,
         [Event.networkRequest env.urlInput, Event.fileCreated name])) := by
  have hdl := download_model_after_get env hp hg
  constructor
  · intro hN
    have hmatch : (env.responseSegments.bind List.getLast?).bind
        (fun name => if name = "" then none else some name) = none := by
      rcases hN with h | h <;> rw [h] <;> rfl
    rw [hmatch] at hdl
    exact ⟨hdl, by rw [hdl]; rfl⟩
  · intro name hsome hne hb
    have hmatch : (env.responseSegments.bind List.getLast?).bind
        (fun name => if name = "" then none else some name) = some name := by
      rw [hsome]
      simp only [Option.some_bind, if_neg hne]
    rw [hmatch] at hdl
    rw [hdl]
    simp [hb]

/-- C6 witness: a response URL ending in a slash (segments ["path", ""])
fails with NoFilenameInUrl and creates no file. -/
theorem C6_filename_from_response_url_witness :
    download_model envSlash =
      (Outcome.err StartError.noFilenameInUrl, [Event.networkRequest ""]) ∧
    (download_model envSlash).2.any Event.isFileCreated = false :=
  (C6_filename_from_response_url envSlash rfl rfl).1 (Or.inr rfl)

/-- With an empty scan, model resolution goes straight to the url prompt
followed by the download. -/
theorem resolveModel_empty_scan (env : Env)
    (hempty : scanCache env.cachedEntries = []) :
    resolveModel env none =
      ((download_model env).1,
       Event.urlPromptShown :: (download_model env).2) := by
  unfold resolveModel
  rw [hempty]
  rfl

/-- The download emits only network and file events, never a chooser. -/
theorem download_events_no_chooser (env : Env) :
    (download_model env).2.any Event.isModelChooser = false := by
  unfold download_model
  split
  · rfl
  · split
    · rfl
    · split
      · rfl
      · split <;> rfl

/-- Template resolution shows exactly the template chooser, whatever
happens. -/
theorem resolveTemplate_events (env : Env) (pt : Option PromptTemplateType) :
    (resolveTemplate env pt).2 = [Event.templateChooserShown PROMPT_TEMPLATES] := by
  unfold resolveTemplate
  cases pt <;> cases env.templateChoice <;> try rfl
  all_goals rename_i idx
  all_goals
    by_cases hlt : idx < PROMPT_TEMPLATES.length
  · simp only [dif_pos hlt]
    cases hfs : PromptTemplateType.from_str (PROMPT_TEMPLATES.get ⟨idx, hlt⟩) <;> rfl
  · simp only [dif_neg hlt]
  · simp only [dif_pos hlt]
    cases hfs : PromptTemplateType.from_str (PROMPT_TEMPLATES.get ⟨idx, hlt⟩) <;> rfl
  · simp only [dif_neg hlt]

/-- The trace of a whole run is the model-resolution trace, possibly
followed by the template-resolution trace. -/
theorem command_start_trace (env : Env) (model : Option String)
    (pt : Option PromptTemplateType) (rp : Option String) (cs : Option Nat) :
    (command_start env model pt rp cs).2 = (resolveModel env model).2 ∨
    (command_start env model pt rp cs).2 =
      (resolveModel env model).2 ++ (resolveTemplate env pt).2 := by
  simp only [command_start]
  split
  · split
    · exact Or.inr rfl
    · exact Or.inr rfl
    · exact Or.inr rfl
  · exact Or.inl rfl
  · exact Or.inl rfl

/-- C7: when no model is given and the cache scan finds nothing, the run
never shows the model chooser and its first interaction is the url
prompt. -/
theorem C7_empty_scan_goes_straight_to_url (env : Env)
    (hempty : scanCache env.cachedEntries = [])
    (pt : Option PromptTemplateType) (rp : Option String) (cs : Option Nat) :
    (command_start env none pt rp cs).2.any Event.isModelChooser = false ∧
    (command_start env none pt rp cs).2.head? = some Event.urlPromptShown := by
  have hm2 : (resolveModel env none).2 =
      Event.urlPromptShown :: (download_model env).2 := by
    rw [resolveModel_empty_scan env hempty]
  rcases command_start_trace env none pt rp cs with h | h
  · rw [h, hm2]
    exact ⟨by simp [List.any_cons, download_events_no_chooser env, Event.isModelChooser], rfl⟩
  · rw [h, hm2, resolveTemplate_events env pt]
    constructor
    · simp [List.any_append, List.any_cons, download_events_no_chooser env,
        Event.isModelChooser]
    · rfl

/-- C7 witness: the property at a concrete run over an empty directory. -/
theorem C7_empty_scan_goes_straight_to_url_witness :
    (command_start envBase none none none none).2.any Event.isModelChooser = false ∧
    (command_start envBase none none none none).2.head? = some Event.urlPromptShown :=
  C7_empty_scan_goes_straight_to_url envBase rfl none none none

/-- C8: the pre-specified template flag does not influence the run at all;
the Some and None branches of the match on it are the same duplicated
interactive block, so two runs differing only in the flag coincide. -/
theorem C8_template_flag_has_no_influence (env : Env) (model : Option String)
    (t : PromptTemplateType) (rp : Option String) (cs : Option Nat) :
    command_start env model (some t) rp cs = command_start env model none rp cs := by
  have h : resolveTemplate env (some t) = resolveTemplate env none := rfl
  unfold command_start
  rw [h]

/-- C8 witness: the equality at a concrete run. -/
theorem C8_template_flag_has_no_influence_witness :
    command_start envIdx5 (some "m.gguf") (some PromptTemplateType.ChatML) none none =
      command_start envIdx5 (some "m.gguf") none none none :=
  C8_template_flag_has_no_influence envIdx5 (some "m.gguf")
    PromptTemplateType.ChatML none none

/-- Selecting catalog index 5 hands "human-asistant" to from_str, which
rejects it; template resolution returns the parse error. -/
theorem resolveTemplate_at_index5 (env : Env) (pt : Option PromptTemplateType)
    (h : env.templateChoice = some 5) :
    resolveTemplate env pt =
      (Outcome.err (StartError.parseError "human-asistant"),
       [Event.templateChooserShown PROMPT_TEMPLATES]) := by
  cases pt <;> (unfold resolveTemplate; rw [h]; rfl)

/-- Every catalog index other than 5 parses successfully. -/
theorem from_str_catalog_ok (i : Fin PROMPT_TEMPLATES.length) (hne : i.val ≠ 5) :
    (PromptTemplateType.from_str (PROMPT_TEMPLATES.get i)).isOk = true := by
  revert hne
  revert i
  decide

/-- C10: selecting catalog index 5 (the string "human-asistant") makes the
whole start workflow fail with a parse error; every other catalog index
parses successfully; and no catalog entry parses to CodeLlamaSuper or
GemmaInstruct, so those variants are unreachable through the menu. -/
theorem C10_menu_index5_fails_others_succeed :
    (∀ (env : Env) (pt : Option PromptTemplateType), env.templateChoice = some 5 →
      (resolveTemplate env pt).1 =
        Outcome.err (StartError.parseError "human-asistant")) ∧
    (∀ (env : Env) (m : String) (pt : Option PromptTemplateType)
        (rp : Option String) (cs : Option Nat), env.templateChoice = some 5 →
      (command_start env (some m) pt rp cs).1 =
        Outcome.err (StartError.parseError "human-asistant")) ∧
    (∀ (env : Env) (pt : Option PromptTemplateType) (i : Nat)
        (hi : i < PROMPT_TEMPLATES.length), env.templateChoice = some i → i ≠ 5 →
      ((resolveTemplate env pt).1).isOk = true) ∧
    (∀ i : Fin PROMPT_TEMPLATES.length,
      PromptTemplateType.from_str (PROMPT_TEMPLATES.get i) ≠
        Except.ok PromptTemplateType.CodeLlamaSuper ∧
      PromptTemplateType.from_str (PROMPT_TEMPLATES.get i) ≠
        Except.ok PromptTemplateType.GemmaInstruct) := by
  refine ⟨?_, ?_, ?_, ?_⟩
  · intro env pt h
    rw [resolveTemplate_at_index5 env pt h]
  · intro env m pt rp cs h
    have ht := resolveTemplate_at_index5 env pt h
    unfold command_start
    rw [ht]
    rfl
  · intro env pt i hi h hne
    have hok := from_str_catalog_ok ⟨i, hi⟩ hne
    cases pt <;>
      (simp only [resolveTemplate, h]
       rw [dif_pos hi]
       cases hfs : PromptTemplateType.from_str (PROMPT_TEMPLATES.get ⟨i, hi⟩) with
       | ok t => rfl
       | error e => rw [hfs] at hok; exact Bool.noConfusion hok)
  · decide

/-- C10 witness: a concrete run in which the human picks index 5. -/
theorem C10_menu_index5_fails_others_succeed_witness :
    (resolveTemplate envIdx5 none).1 =
      Outcome.err (StartError.parseError "human-asistant") :=
  C10_menu_index5_fails_others_succeed.1 envIdx5 none rfl
